import Mathlib

/-!
Verification of the event-delivery core of the go-avahi binding.

The development shallow-embeds the Go sources:

* `eventqueue[T]` (event queue with background forwarding goroutine `proc`,
  a `closechan` close signal and an unbuffered output channel `outchan`);
* `Poller` (`pollerAddSource`, `delSource`, `Poll` built on `reflect.Select`);
* `closers` (the set of child resources closed in cascade);
* `Client` (`Close`, `Get`, and the `clientCallback` state-change callback),
  plus the `ClientState` / `ErrCode` enumerations.

Concurrency is embedded as explicit state types plus labelled step
relations.  The event queue is embedded at two granularities.  `QStep`
fuses each iteration of `proc` (the locked pop of the buffer head and the
lock-free handoff `select`) into one atomic step; this coarse relation
cannot represent two handoffs in flight at once, and is used only for
facts that such fusion cannot affect: enabledness of the panic case of a
single handoff, and the absence of deliveries once the output channel is
closed.  `RStep` embeds the code at full granularity — the pop under the
lock and the handoff rendezvous are separate steps, and values whose
handoff `select`s are pending are tracked in an explicit in-flight pool —
which exposes the interleaving in which a second `proc` goroutine is
spawned while a popped value is still awaiting its handoff.  Go channel
semantics are embedded faithfully where the code depends on them: a
receive on a closed channel yields the zero value immediately, a close of
an already-closed channel panics, and a send on a closed channel panics,
also when that send is one case of a `select` whose other case is ready.
-/

namespace GoAvahi

/-! ## Event queue (src/unnamed/part_012) -/

/-- State of one `eventqueue[T]`.  `buf` is the buffered-values slice,
`closechanClosed` and `outchanClosed` record whether `closechan` and
`outchan` have been closed.  `pushed` and `delivered` are history
variables: every value ever passed to `Push`, and every value actually
handed to a reader over `outchan`, in order.  `panicked` records that a
runtime panic (close of a closed channel, send on a closed channel)
occurred. -/
structure EventQueue (T : Type) where
  buf : List T
  closechanClosed : Bool
  outchanClosed : Bool
  pushed : List T
  delivered : List T
  panicked : Bool
  deriving Repr, DecidableEq

/-- The state right after `init`: empty buffer, both channels open. -/
def EventQueue.initq {T : Type} : EventQueue T :=
  { buf := [], closechanClosed := false, outchanClosed := false,
    pushed := [], delivered := [], panicked := false }

/-- The body of `eventqueue.Push`: under the lock, append the value to
`buf` (the code performs the append unconditionally, with no closed
check); when the buffer becomes non-empty a `proc` goroutine is spawned,
which the step relation models as `deliver`/`discard`/`panicSend` steps. -/
def EventQueue.Push {T : Type} (q : EventQueue T) (v : T) : EventQueue T :=
  { q with buf := q.buf ++ [v], pushed := q.pushed ++ [v] }

/-- One iteration of `eventqueue.proc` in which the handoff `select`
resolves to `q.outchan <- v`: the buffer head is popped and delivered to a
reader.  The locked pop and the lock-free handoff are fused into one
atomic step here; the refined model below (`EventQueueR`, `RStep`)
separates them.  The fused step cannot represent two pending handoffs at
once, so it must not be used to reason about delivery order — only about
properties of a single handoff and of states with a closed channel. -/
def EventQueue.procDeliver {T : Type} (q : EventQueue T) : EventQueue T :=
  { q with buf := q.buf.drop 1, delivered := q.delivered ++ q.buf.take 1 }

/-- One iteration of `eventqueue.proc` in which the handoff `select`
resolves to `<-q.closechan` (possible once `closechan` is closed): the
popped value is silently dropped. -/
def EventQueue.procDiscard {T : Type} (q : EventQueue T) : EventQueue T :=
  { q with buf := q.buf.drop 1 }

/-- One iteration of `eventqueue.proc` in which the handoff `select`
chooses the case `q.outchan <- v` while `outchan` is already closed: in Go
a send on a closed channel is a ready communication for `select`, and
performing it panics. -/
def EventQueue.procPanic {T : Type} (q : EventQueue T) : EventQueue T :=
  { q with buf := q.buf.drop 1, panicked := true }

/-- The body of `eventqueue.Close`: under the lock the buffer is truncated
to length zero and `closechan` is closed (in Go, closing an already-closed
channel panics); after the goroutine has drained, `outchan` is closed. -/
def EventQueue.Close {T : Type} (q : EventQueue T) : EventQueue T :=
  if q.closechanClosed then
    { q with buf := [], panicked := true }
  else
    { q with buf := [], closechanClosed := true, outchanClosed := true }

/-- What a reader of the output channel observes at a quiescent state (no
handoff mid-flight): with `outchan` closed, a Go receive returns the zero
value with `ok = false` immediately (the end-of-stream indication); with
`outchan` open the reader stays blocked until a `procDeliver` handoff. -/
inductive RecvOutcome where
  | blocked
  | eos
  deriving Repr, DecidableEq

/-- Receive outcome on the queue's output channel at a quiescent state. -/
def EventQueue.recvNow {T : Type} (q : EventQueue T) : RecvOutcome :=
  if q.outchanClosed then RecvOutcome.eos else RecvOutcome.blocked

/-- Coarse steps of the producer thread and the `proc` goroutine of a live
(non-panicked) queue, with each `proc` iteration fused into one step (see
`EventQueue.procDeliver`); the relation therefore under-approximates the
interleavings of the code — `RStep` below is the exact-granularity
relation — and is used only where the fusion is harmless: the panic case
of a handoff `select` is enabled in a state of this relation exactly when
it is enabled for the corresponding pending handoff of the code, and a
closed output channel excludes deliveries in both.  `Close` is
deliberately not a step: executions of `QStep` alone are close-free. -/
inductive QStep {T : Type} : EventQueue T → EventQueue T → Prop
  | push (q : EventQueue T) (v : T) :
      q.panicked = false → QStep q (q.Push v)
  | deliver (q : EventQueue T) :
      q.panicked = false → q.buf ≠ [] → q.outchanClosed = false →
      QStep q q.procDeliver
  | discard (q : EventQueue T) :
      q.panicked = false → q.buf ≠ [] → q.closechanClosed = true →
      QStep q q.procDiscard
  | panicSend (q : EventQueue T) :
      q.panicked = false → q.buf ≠ [] → q.outchanClosed = true →
      QStep q q.procPanic

/-- Refined state of one `eventqueue[T]`, at the exact granularity of the
code.  `buf` is the buffered-values slice; `looping` counts the `proc`
goroutines currently at the head of their loop (about to take the lock
and examine `buf`); `inflight` holds the values already popped by `proc`
goroutines whose handoff `select` is still pending — the pop releases the
lock before the `select`, so several handoffs can be pending at once.
The goroutines race to enter their `select`s, so the rendezvous order
between pending sends and readers of the shared unbuffered channel is not
determined by pop order; a delivery step below therefore picks any member
of `inflight`.  `pushed` and `delivered` are the history variables of the
coarse model. -/
structure EventQueueR (T : Type) where
  buf : List T
  looping : Nat
  inflight : List T
  closechanClosed : Bool
  outchanClosed : Bool
  pushed : List T
  delivered : List T
  panicked : Bool
  deriving Repr, DecidableEq

/-- The state right after `init` in the refined model: empty buffer, no
`proc` goroutine, nothing in flight, both channels open. -/
def EventQueueR.initR {T : Type} : EventQueueR T :=
  { buf := [], looping := 0, inflight := [], closechanClosed := false,
    outchanClosed := false, pushed := [], delivered := [], panicked := false }

/-- The body of `eventqueue.Push` in the refined model: under the lock the
value is appended to `buf`, and when the appended buffer has length one
(`len(q.buf) == 1` after the append) a new `proc` goroutine is spawned —
also when an earlier `proc` is still pending in its handoff `select` with
a popped value, since that value is no longer in `buf`. -/
def EventQueueR.PushR {T : Type} (q : EventQueueR T) (v : T) : EventQueueR T :=
  { q with buf := q.buf ++ [v], pushed := q.pushed ++ [v],
           looping := if (q.buf ++ [v]).length = 1 then q.looping + 1
                      else q.looping }

/-- The first half of a `proc` iteration: under the lock, pop the buffer
head; the goroutine then releases the lock and blocks in its handoff
`select`, so the popped value joins the in-flight pool. -/
def EventQueueR.popR {T : Type} (q : EventQueueR T) : EventQueueR T :=
  { q with buf := q.buf.drop 1, inflight := q.inflight ++ q.buf.take 1,
           looping := q.looping - 1 }

/-- A `proc` goroutine that takes the lock, finds `buf` empty, and exits
its loop (`closewait.Done`). -/
def EventQueueR.procExitR {T : Type} (q : EventQueueR T) : EventQueueR T :=
  { q with looping := q.looping - 1 }

/-- The second half of a `proc` iteration in which the pending `select`
resolves to `q.outchan <- v` with a reader: the i-th in-flight value is
handed over and its goroutine reacquires the lock and loops. -/
def EventQueueR.deliverAt {T : Type} (q : EventQueueR T) (i : Nat) :
    EventQueueR T :=
  { q with delivered := q.delivered ++ (q.inflight.drop i).take 1,
           inflight := q.inflight.eraseIdx i,
           looping := q.looping + 1 }

/-- The second half of a `proc` iteration in which the pending `select`
resolves to `<-q.closechan` (possible once `closechan` is closed): the
i-th in-flight value is silently dropped and its goroutine reacquires the
lock and loops. -/
def EventQueueR.discardAt {T : Type} (q : EventQueueR T) (i : Nat) :
    EventQueueR T :=
  { q with inflight := q.inflight.eraseIdx i, looping := q.looping + 1 }

/-- The second half of a `proc` iteration in which the pending `select`
chooses the send on the already-closed `outchan`: a Go runtime panic. -/
def EventQueueR.panicAt {T : Type} (q : EventQueueR T) (_i : Nat) :
    EventQueueR T :=
  { q with panicked := true }

/-- The first phase of `eventqueue.Close` in the refined model: under the
lock the buffer is truncated and `closechan` is closed (a panic if it
already is).  `Close` then blocks in `closewait.Wait()` until every
`proc` has exited (`looping = 0` and `inflight = []`), after which
`closeOutR` closes the output channel. -/
def EventQueueR.closeSignalR {T : Type} (q : EventQueueR T) : EventQueueR T :=
  if q.closechanClosed then { q with buf := [], panicked := true }
  else { q with buf := [], closechanClosed := true }

/-- The second phase of `eventqueue.Close`: after `closewait.Wait()`
returns, the output channel is closed. -/
def EventQueueR.closeOutR {T : Type} (q : EventQueueR T) : EventQueueR T :=
  { q with outchanClosed := true }

/-- Exact-granularity steps of the producer thread and the `proc`
goroutines of a live (non-panicked) queue.  A pop requires a goroutine at
its loop head and a non-empty buffer; the three `select` resolutions act
on any pending in-flight handoff.  `Close` is again not a step, so
executions of `RStep` alone are exactly the close-free executions of the
code. -/
inductive RStep {T : Type} : EventQueueR T → EventQueueR T → Prop
  | push (q : EventQueueR T) (v : T) :
      q.panicked = false → RStep q (q.PushR v)
  | pop (q : EventQueueR T) :
      q.panicked = false → 0 < q.looping → q.buf ≠ [] → RStep q q.popR
  | procExit (q : EventQueueR T) :
      q.panicked = false → 0 < q.looping → q.buf = [] → RStep q q.procExitR
  | deliver (q : EventQueueR T) (i : Nat) :
      q.panicked = false → i < q.inflight.length → q.outchanClosed = false →
      RStep q (q.deliverAt i)
  | discard (q : EventQueueR T) (i : Nat) :
      q.panicked = false → i < q.inflight.length → q.closechanClosed = true →
      RStep q (q.discardAt i)
  | panicSend (q : EventQueueR T) (i : Nat) :
      q.panicked = false → i < q.inflight.length → q.outchanClosed = true →
      RStep q (q.panicAt i)

/-! ## Poller (src/unnamed/part_000) -/

/-- The body of `pollerAddSource`: scan the registered sources for the
channel (reflect.Value identity comparison) and return unchanged if it is
already present, otherwise append it. -/
def pollerAddSource {C : Type} [DecidableEq C] (sources : List C) (chn : C) :
    List C :=
  if chn ∈ sources then sources else sources ++ [chn]

/-- The body of `Poller.delSource`: remove the first entry whose channel
equals `chn`, shifting the rest left. -/
def delSource {C : Type} [DecidableEq C] : List C → C → List C
  | [], _ => []
  | x :: xs, chn => if x = chn then xs else x :: delSource xs chn

/-- Outcome of one `reflect.Select` round inside `Poller.Poll` (with the
context's done channel prepended as case 0): the context fired, or a
registered source's channel was found closed (`ok = false`), or an event
was received from a registered source. -/
inductive SelectOutcome (C E : Type) where
  | cancel
  | closedRecv (chn : C)
  | event (chn : C) (e : E)
  deriving Repr, DecidableEq

/-- Result of a `Poller.Poll` call: an event was returned with a nil
error, or the context was cancelled and `Poll` returned `nil` with the
context's non-nil error, or the call is still blocked waiting. -/
inductive PollResult (E : Type) where
  | event (e : E)
  | cancelled
  | pending
  deriving Repr, DecidableEq

/-- The loop of `Poller.Poll`, driven by the sequence of `reflect.Select`
outcomes of its successive rounds: a `cancel` outcome makes the loop
condition `ctx.Err() == nil` fail and `Poll` returns the context error; a
`closedRecv` outcome deregisters the source via `delSource` and retries;
an `event` outcome is returned to the caller.  Returns the final source
registry together with the result. -/
def pollRun {C E : Type} [DecidableEq C] (sources : List C) :
    List (SelectOutcome C E) → List C × PollResult E
  | [] => (sources, PollResult.pending)
  | SelectOutcome.cancel :: _ => (sources, PollResult.cancelled)
  | SelectOutcome.closedRecv chn :: rest => pollRun (delSource sources chn) rest
  | SelectOutcome.event _ e :: _ => (sources, PollResult.event e)

/-- The Go return value `(any, error)` of a completed `Poll` call:
`.event e` is `(e, nil)`, `.cancelled` is `(nil, ctx.Err())` with the
error present, and a still-pending call has returned nothing. -/
def PollResult.toPair {E : Type} : PollResult E → Option (Option E × Bool)
  | PollResult.event e => some (some e, false)
  | PollResult.cancelled => some (none, true)
  | PollResult.pending => none

/-! ## Closers registry (src/unnamed/part_011) -/

/-- The body of `closers.close` together with Go map-range semantics under
self-removal.  `order` is the order in which the `for obj := range set`
loop would produce the members (an arbitrary permutation of the start
set); a member still present in the set when reached has its `Close`
invoked, and that `Close` removes the member from the registry as a side
effect (as `RecordBrowser.Close` does via `delCloser`); a member already
removed is not produced by the range.  Returns the final registry and the
list of members whose `Close` was invoked, in invocation order. -/
def closersClose {M : Type} [DecidableEq M] : List M → List M → List M × List M
  | [], s => (s, [])
  | m :: rest, s =>
    if m ∈ s then
      let r := closersClose rest (s.erase m)
      (r.1, m :: r.2)
    else closersClose rest s

/-! ## Client (src/client.go, src/clientstate.go, src/err.go) -/

/-- Avahi error codes (src/err.go): `AVAHI_OK = 0`,
`AVAHI_ERR_FAILURE = -1`. -/
abbrev ErrCode := Int

/-- NoError is `AVAHI_OK`. -/
def NoError : ErrCode := 0

/-- ErrFailure is the generic error code `AVAHI_ERR_FAILURE`. -/
def ErrFailure : ErrCode := -1

/-- ClientState values (src/clientstate.go): the zero state is reported
only when the Client is closed; the remaining values mirror the C
`AvahiClientState` enumeration. -/
abbrev ClientState := Int

/-- The invalid (zero) state, reported when the Client is closed. -/
def ClientStateClosed : ClientState := 0

/-- AVAHI_CLIENT_S_REGISTERING. -/
def ClientStateRegistering : ClientState := 1

/-- AVAHI_CLIENT_S_RUNNING. -/
def ClientStateRunning : ClientState := 2

/-- AVAHI_CLIENT_S_COLLISION. -/
def ClientStateCollision : ClientState := 3

/-- AVAHI_CLIENT_FAILURE. -/
def ClientStateFailure : ClientState := 100

/-- AVAHI_CLIENT_CONNECTING. -/
def ClientStateConnecting : ClientState := 101

/-- The states the foreign `AvahiClientCallback` can be invoked with: the
five members of the C `AvahiClientState` enumeration.  The zero value
`ClientStateClosed` is not among them. -/
inductive AvahiClientState where
  | sRegistering
  | sRunning
  | sCollision
  | failure
  | connecting
  deriving Repr, DecidableEq

/-- The conversion `ClientState(s)` applied by `clientCallback` to the
foreign state value. -/
def AvahiClientState.toClientState : AvahiClientState → ClientState
  | AvahiClientState.sRegistering => ClientStateRegistering
  | AvahiClientState.sRunning => ClientStateRunning
  | AvahiClientState.sCollision => ClientStateCollision
  | AvahiClientState.failure => ClientStateFailure
  | AvahiClientState.connecting => ClientStateConnecting

/-- ClientEvent (src/client.go): the new state and, for failures, the
associated error code. -/
structure ClientEvent where
  State : ClientState
  Err : ErrCode
  deriving Repr, DecidableEq

/-- State of a `Client` (src/client.go).  `avahiClient` and
`threadedPoll` model the C pointers (`none` is the nil pointer),
`children` the closers registry, `closed` the atomic closed flag. -/
structure ClientModel where
  closed : Bool
  queue : EventQueue ClientEvent
  children : List Nat
  avahiClient : Option Nat
  threadedPoll : Option Nat
  pollStopped : Bool
  handleDeleted : Bool
  deriving Repr, DecidableEq

/-- The body of `Client.Close`: guarded by `closed.Swap(true)`, so only
the first call stops the event loop, closes every child (each child
removes itself from the registry, which therefore ends empty), frees the
C objects, closes the queue and deletes the handle; any later call
returns at once. -/
def ClientModel.Close (clnt : ClientModel) : ClientModel :=
  if clnt.closed then clnt
  else
    { clnt with
        closed := true, pollStopped := true, children := [],
        avahiClient := none, threadedPoll := none,
        queue := clnt.queue.Close, handleDeleted := true }

/-- State of a `RecordBrowser` (src/recordbrowser.go): atomic closed
flag, its event queue, its registration in the parent's closers set and
the C pointer. -/
structure RecordBrowserModel where
  closed : Bool
  queue : EventQueue Nat
  inParent : Bool
  avahiBrowser : Option Nat
  handleDeleted : Bool
  deriving Repr, DecidableEq

/-- The body of `RecordBrowser.Close`: guarded by `closed.Swap(true)`;
the first call removes the browser from the parent registry via
`delCloser`, frees the C browser, closes the queue and deletes the
handle. -/
def RecordBrowserModel.Close (b : RecordBrowserModel) : RecordBrowserModel :=
  if b.closed then b
  else
    { b with
        closed := true, inParent := false, avahiBrowser := none,
        queue := b.queue.Close, handleDeleted := true }

/-- State of an `AddressResolver` as in src/queue.go lines 218-226. -/
structure AddressResolverModel where
  queue : EventQueue Nat
  avahiResolver : Option Nat
  handleDeleted : Bool
  deriving Repr, DecidableEq

/-- The body of the `AddressResolver.Close` at src/queue.go lines
218-226: it has no closed-flag guard; every call frees the C resolver,
closes the queue and deletes the handle. -/
def AddressResolverModel.Close (r : AddressResolverModel) : AddressResolverModel :=
  { queue := r.queue.Close, avahiResolver := none, handleDeleted := true }

/-- The event built by `clientCallback` (src/client.go lines 236-256):
the converted state, with `Err` left at the zero value unless the new
state is `ClientStateFailure`, in which case it is `ErrFailure` when
`clnt.avahiClient` is still nil and otherwise the error code
`clnt.errno()` read from the foreign source at that moment (`errnoNow`).
-/
def clientCallbackEvent (clnt : ClientModel) (s : AvahiClientState)
    (errnoNow : ErrCode) : ClientEvent :=
  { State := s.toClientState,
    Err :=
      if s.toClientState = ClientStateFailure then
        (if clnt.avahiClient.isSome then errnoNow else ErrFailure)
      else NoError }

/-- The body of `clientCallback`: build the event and push it onto the
client's event queue. -/
def clientCallback (clnt : ClientModel) (s : AvahiClientState)
    (errnoNow : ErrCode) : ClientModel :=
  { clnt with queue := clnt.queue.Push (clientCallbackEvent clnt s errnoNow) }

/-- Outcome of the `select` inside `Client.Get` (src/client.go lines
160-167): the context fired first, or an event was received from the
queue channel, or the receive found the channel closed and produced the
nil event. -/
inductive GetOutcome (E : Type) where
  | ctxDone
  | recvEvent (e : E)
  | recvClosed
  deriving Repr, DecidableEq

/-- The return value `(event, error)` of `Client.Get` (the same shape is
used by every notifier's `Get`): `(nil, ctx.Err())` with a non-nil error
on cancellation, `(event, nil)` on success, `(nil, nil)` when the queue
channel was closed. -/
def clientGet {E : Type} : GetOutcome E → Option E × Bool
  | GetOutcome.ctxDone => (none, true)
  | GetOutcome.recvEvent e => (some e, false)
  | GetOutcome.recvClosed => (none, false)

/-! ## Theorems: event queue -/

/-- Claim C1 (the code at the failing input): the queue does not
guarantee FIFO delivery.  In the close-free execution in which `Push 1`
spawns a `proc` that pops 1 and releases the lock before its handoff
`select`, `Push 2` finds the buffer empty again, so its append makes
`len(q.buf) == 1` and it spawns a second `proc`; that goroutine pops 2,
and the two pending sends on the shared unbuffered output channel race —
when the second goroutine reaches its `select` first, a reader receives 2
before 1.  The exhibited state is reachable by `RStep` from the initial
queue with no close involved and no panic, with push history `[1, 2]` and
delivery history `[2, 1]`, refuting in-push-order delivery. -/
theorem eventqueue_fifo_violation :
    ∃ s : EventQueueR Nat,
      Relation.ReflTransGen RStep (EventQueueR.initR (T := Nat)) s ∧
      s.pushed = [1, 2] ∧ s.delivered = [2, 1] ∧
      s.panicked = false ∧ s.closechanClosed = false := by
  refine ⟨((((EventQueueR.initR (T := Nat)).PushR
      1).popR.PushR 2).popR.deliverAt 1).deliverAt 0,
    ?_, rfl, rfl, rfl, rfl⟩
  refine Relation.ReflTransGen.head (RStep.push _ 1 rfl) ?_
  refine Relation.ReflTransGen.head (RStep.pop _ rfl (by decide) (by decide)) ?_
  refine Relation.ReflTransGen.head (RStep.push _ 2 rfl) ?_
  refine Relation.ReflTransGen.head (RStep.pop _ rfl (by decide) (by decide)) ?_
  refine Relation.ReflTransGen.head (RStep.deliver _ 1 rfl (by decide) rfl) ?_
  exact Relation.ReflTransGen.single (RStep.deliver _ 0 rfl (by decide) rfl)

/-- Claim C2 (the code at the failing input): on a queue whose `Close`
has completed, `Push` itself returns normally and respawns `proc`; but
the respawned handoff `select` has the send on the now-closed `outchan`
as one of its ready cases, so the step in which that case is chosen — a
Go panic — is enabled, contradicting the contract that the value is
silently dropped with no send on the closed channel and no panic. -/
theorem eventqueue_push_after_close_panic_enabled :
    QStep ((EventQueue.initq (T := Nat)).Close.Push 7)
      ((EventQueue.initq (T := Nat)).Close.Push 7).procPanic ∧
    ((EventQueue.initq (T := Nat)).Close.Push 7).procPanic.panicked = true ∧
    ((EventQueue.initq (T := Nat)).Close.Push 7).procPanic.delivered = [] :=
  ⟨QStep.panicSend _ rfl (by decide) rfl, rfl, rfl⟩

/-- Claim C3 counterexample: a second `eventqueue.Close` reaches
`close(q.closechan)` with `closechan` already closed and panics, and the
unguarded `AddressResolver.Close` of src/queue.go closes the queue twice
with the same effect — so not every close operation in the system is an
idempotent no-op. -/
theorem double_close_panics_cex :
    ((EventQueue.initq (T := Nat)).Close.Close).panicked = true ∧
    (AddressResolverModel.Close (AddressResolverModel.Close
        { queue := EventQueue.initq, avahiResolver := some 1,
          handleDeleted := false })).queue.panicked = true :=
  ⟨rfl, rfl⟩

/-- Claim C3 (amended): the close operations guarded by an atomic
`closed.Swap(true)` — `Client.Close` and the notifier closes such as
`RecordBrowser.Close` — are idempotent: a second call is a no-op and the
state after two calls equals the state after one; the internal
`eventqueue.Close` (and the unguarded `AddressResolver.Close` at
src/queue.go lines 218-226) is not idempotent and is called at most once
by those guarded callers. -/
theorem guarded_close_idempotent (clnt : ClientModel) (b : RecordBrowserModel) :
    clnt.Close.Close = clnt.Close ∧ b.Close.Close = b.Close := by
  constructor
  · unfold ClientModel.Close
    by_cases h : clnt.closed <;> simp [h]
  · unfold RecordBrowserModel.Close
    by_cases h : b.closed <;> simp [h]

/-- Witness for C3: idempotence at a concrete open client and browser. -/
theorem guarded_close_idempotent_witness :
    ({ closed := false, queue := EventQueue.initq, children := [3, 4],
       avahiClient := some 5, threadedPoll := some 6, pollStopped := false,
       handleDeleted := false } : ClientModel).Close.Close
      = ({ closed := false, queue := EventQueue.initq, children := [3, 4],
           avahiClient := some 5, threadedPoll := some 6, pollStopped := false,
           handleDeleted := false } : ClientModel).Close ∧
    ({ closed := false, queue := EventQueue.initq, inParent := true,
       avahiBrowser := some 2, handleDeleted := false } : RecordBrowserModel).Close.Close
      = ({ closed := false, queue := EventQueue.initq, inParent := true,
           avahiBrowser := some 2, handleDeleted := false } : RecordBrowserModel).Close :=
  guarded_close_idempotent _ _

/-- Helper: once the output channel is closed, every later step leaves it
closed and delivers nothing further. -/
theorem qstep_closed_no_delivery {T : Type} {q0 s : EventQueue T}
    (h : Relation.ReflTransGen QStep q0 s) (h0 : q0.outchanClosed = true) :
    s.outchanClosed = true ∧ s.delivered = q0.delivered := by
  induction h with
  | refl => exact ⟨h0, rfl⟩
  | tail _ hstep ih =>
    obtain ⟨h1, h2⟩ := ih
    cases hstep with
    | push v _ => exact ⟨h1, h2⟩
    | deliver _ _ ho => rw [h1] at ho; exact absurd ho (by simp)
    | discard _ _ _ => exact ⟨h1, h2⟩
    | panicSend _ _ _ => exact ⟨h1, h2⟩

/-- Claim C4: closing a queue that holds K buffered, not-yet-received
values empties the buffer — none of the K values is delivered afterwards,
in any continuation — and closes the output channel, so every blocked or
later reader immediately observes the single channel-closed end-of-stream
indication instead of blocking or receiving a value. -/
theorem eventqueue_close_discards {T : Type} (q : EventQueue T)
    (hc : q.closechanClosed = false) :
    q.Close.buf = [] ∧ q.Close.outchanClosed = true ∧
    q.Close.recvNow = RecvOutcome.eos ∧
    ∀ s, Relation.ReflTransGen QStep q.Close s →
      s.delivered = q.delivered ∧ s.recvNow = RecvOutcome.eos := by
  have hq : q.Close
      = { q with buf := [], closechanClosed := true, outchanClosed := true } := by
    unfold EventQueue.Close
    simp [hc]
  refine ⟨by rw [hq], by rw [hq], by rw [hq]; rfl, fun s hs => ?_⟩
  have h0 : q.Close.outchanClosed = true := by rw [hq]
  obtain ⟨h1, h2⟩ := qstep_closed_no_delivery hs h0
  refine ⟨?_, ?_⟩
  · rw [h2, hq]
  · unfold EventQueue.recvNow
    rw [h1]
    rfl

/-- Witness for C4: a queue holding two buffered values, closed; the
buffer empties, the channel closes and nothing more is delivered. -/
theorem eventqueue_close_discards_witness :
    (((EventQueue.initq (T := Nat)).Push 1).Push 2).Close.buf = [] ∧
    (((EventQueue.initq (T := Nat)).Push 1).Push 2).Close.outchanClosed = true ∧
    (((EventQueue.initq (T := Nat)).Push 1).Push 2).Close.recvNow = RecvOutcome.eos ∧
    ∀ s, Relation.ReflTransGen QStep (((EventQueue.initq (T := Nat)).Push 1).Push 2).Close s →
      s.delivered = (((EventQueue.initq (T := Nat)).Push 1).Push 2).delivered ∧
      s.recvNow = RecvOutcome.eos :=
  eventqueue_close_discards _ rfl

/-! ## Theorems: poller -/

/-- Helper: `pollerAddSource` preserves the no-duplicates invariant of
the source registry. -/
theorem pollerAddSource_nodup {C : Type} [DecidableEq C]
    {sources : List C} (h : sources.Nodup) (chn : C) :
    (pollerAddSource sources chn).Nodup := by
  unfold pollerAddSource
  by_cases hm : chn ∈ sources
  · simp [hm, h]
  · simp [hm, h, List.nodup_append]

/-- Helper: any fold of `pollerAddSource` over a no-duplicates registry
keeps it duplicate-free. -/
theorem pollerAddSource_foldl_nodup {C : Type} [DecidableEq C]
    (adds : List C) :
    ∀ sources : List C, sources.Nodup → (adds.foldl pollerAddSource sources).Nodup := by
  induction adds with
  | nil => intro sources h; exact h
  | cons a rest ih =>
    intro sources h
    exact ih _ (pollerAddSource_nodup h a)

/-- Claim C5: registering the same channel twice in one Poller is a
no-op — `pollerAddSource` applied a second time with the same channel
returns the registry unchanged — and after any sequence of registrations
starting from the empty registry, each distinct channel occurs at most
once in the source set, so one `reflect.Select` snapshot holds at most
one case for it and an event pushed to it is delivered once, not twice. -/
theorem poller_add_source_at_most_once {C : Type} [DecidableEq C]
    (adds : List C) (chn : C) :
    (adds.foldl pollerAddSource []).count chn ≤ 1 ∧
    ∀ sources : List C,
      pollerAddSource (pollerAddSource sources chn) chn
        = pollerAddSource sources chn := by
  constructor
  · exact List.nodup_iff_count_le_one.mp
      (pollerAddSource_foldl_nodup adds [] (by simp)) chn
  · intro sources
    have hmem : chn ∈ pollerAddSource sources chn := by
      unfold pollerAddSource
      by_cases hm : chn ∈ sources <;> simp [hm]
    show (if chn ∈ pollerAddSource sources chn then pollerAddSource sources chn
          else pollerAddSource sources chn ++ [chn]) = pollerAddSource sources chn
    rw [if_pos hmem]

/-- Witness for C5: adding channel 3 twice (among others) leaves one
occurrence, and re-adding to a concrete registry is a no-op. -/
theorem poller_add_source_at_most_once_witness :
    (([3, 5, 3, 7] : List Nat).foldl pollerAddSource []).count 3 ≤ 1 ∧
    ∀ sources : List Nat,
      pollerAddSource (pollerAddSource sources 3) 3
        = pollerAddSource sources 3 :=
  poller_add_source_at_most_once [3, 5, 3, 7] 3

/-- Helper: deleting a channel from a duplicate-free registry removes it;
the channel is no longer among the registered sources. -/
theorem delSource_not_mem {C : Type} [DecidableEq C]
    {sources : List C} (h : sources.Nodup) (chn : C) :
    chn ∉ delSource sources chn := by
  induction sources with
  | nil => simp [delSource]
  | cons x xs ih =>
    rw [List.nodup_cons] at h
    unfold delSource
    by_cases hx : x = chn
    · simp only [hx, if_pos rfl]
      rw [← hx]
      exact h.1
    · simp only [if_neg hx]
      intro hmem
      rcases List.mem_cons.mp hmem with hl | hr
      · exact hx hl.symm
      · exact ih h.2 hr

/-- Helper: `delSource` preserves the no-duplicates invariant. -/
theorem delSource_nodup {C : Type} [DecidableEq C]
    {sources : List C} (h : sources.Nodup) (chn : C) :
    (delSource sources chn).Nodup := by
  induction sources with
  | nil => simp [delSource]
  | cons x xs ih =>
    rw [List.nodup_cons] at h
    unfold delSource
    by_cases hx : x = chn
    · simp only [hx, if_pos rfl]
      exact h.2
    · simp only [if_neg hx]
      rw [List.nodup_cons]
      refine ⟨fun hmem => ?_, ih h.2⟩
      have : delSource xs chn ⊆ xs := by
        clear hmem ih h
        induction xs with
        | nil => simp [delSource]
        | cons y ys ihy =>
          unfold delSource
          by_cases hy : y = chn
          · simp only [hy, if_pos rfl]
            exact List.subset_cons_self _ _
          · simp only [if_neg hy]
            exact List.cons_subset_cons y ihy
      exact h.1 (this hmem)

/-- Helper: `pollRun` fabricates no events — every event it returns was
received from a source in one of its select rounds. -/
theorem pollRun_event_from_oracle {C E : Type} [DecidableEq C]
    (os : List (SelectOutcome C E)) :
    ∀ (sources : List C) (e : E),
      (pollRun sources os).2 = PollResult.event e →
      ∃ c2, SelectOutcome.event c2 e ∈ os := by
  induction os with
  | nil => intro sources e h; exact absurd h (by simp [pollRun])
  | cons o rest ih =>
    intro sources e h
    cases o with
    | cancel => exact absurd h (by simp [pollRun])
    | closedRecv chn =>
      obtain ⟨c2, hc2⟩ := ih (delSource sources chn) e h
      exact ⟨c2, List.mem_cons_of_mem _ hc2⟩
    | event chn e2 =>
      simp only [pollRun] at h
      cases h
      exact ⟨chn, List.mem_cons_self _ _⟩

/-- Claim C6: when one select round of `Poll` finds a registered source's
channel closed, `Poll` deregisters exactly that source via `delSource`
and goes on waiting with the remaining sources (the run continues on the
reduced registry); the closed channel is gone from the registry — so no
further round blocks on it — and `Poll` never returns a spurious event
that no source actually produced. -/
theorem poll_closed_source_deregistered {C E : Type} [DecidableEq C]
    (sources : List C) (h : sources.Nodup) (chn : C)
    (rest : List (SelectOutcome C E)) :
    pollRun sources (SelectOutcome.closedRecv chn :: rest)
      = pollRun (delSource sources chn) rest ∧
    chn ∉ delSource sources chn ∧
    (delSource sources chn).Nodup ∧
    ∀ (os : List (SelectOutcome C E)) (e : E),
      (pollRun sources os).2 = PollResult.event e →
      ∃ c2, SelectOutcome.event c2 e ∈ os :=
  ⟨rfl, delSource_not_mem h chn, delSource_nodup h chn,
    fun os e => pollRun_event_from_oracle os sources e⟩

/-- Witness for C6: a poller registered on channel 5 alone observes the
channel closed and then the cancellation; channel 5 is deregistered. -/
theorem poll_closed_source_deregistered_witness :
    pollRun (C := Nat) (E := Nat) [5]
        (SelectOutcome.closedRecv 5 :: [SelectOutcome.cancel])
      = pollRun (delSource [5] 5) [SelectOutcome.cancel] ∧
    5 ∉ delSource [5] 5 ∧
    (delSource ([5] : List Nat) 5).Nodup ∧
    ∀ (os : List (SelectOutcome Nat Nat)) (e : Nat),
      (pollRun [5] os).2 = PollResult.event e →
      ∃ c2, SelectOutcome.event c2 e ∈ os :=
  poll_closed_source_deregistered [5] (by decide) 5 [SelectOutcome.cancel]

/-- Claim C9 counterexample: a `Poll` on a poller whose only source has
been closed observes the end-of-stream in its first select round, yet its
only return is the cancellation outcome `(nil, ctx.Err())` — end-of-stream
is never surfaced as the claimed `(nil, nil)` return, so `Poll` does not
distinguish the three outcomes the claim requires. -/
theorem poll_eos_not_returned_cex :
    pollRun (C := Nat) (E := Nat) [0]
        [SelectOutcome.closedRecv 0, SelectOutcome.cancel]
      = ([], PollResult.cancelled) ∧
    PollResult.toPair (PollResult.cancelled : PollResult Nat)
      = some (none, true) ∧
    (((none : Option Nat), true) : Option Nat × Bool) ≠ (none, false) :=
  ⟨rfl, rfl, by decide⟩

/-- Claim C9 (amended): a notifier's `Get` distinguishes exactly three
mutually exclusive outcomes — an event with a nil error, cancellation as
a nil event with the context's non-nil error, and end-of-stream after
close as a nil event with a nil error — so cancellation and end-of-stream
are distinguishable by the caller; `Poller.Poll`, by contrast, returns
only two of them (an event, or cancellation): a source's end-of-stream is
consumed internally by deregistering the source and is never returned as
the `(nil, nil)` pair. -/
theorem get_three_outcomes_poll_two {C E : Type} [DecidableEq C]
    (o : GetOutcome E) (sources : List C) (os : List (SelectOutcome C E)) :
    (clientGet o = ((none : Option E), true) ∨
      (∃ e, clientGet o = (some e, false)) ∨
      clientGet o = ((none : Option E), false)) ∧
    (clientGet o = ((none : Option E), true) ↔ o = GetOutcome.ctxDone) ∧
    (clientGet o = ((none : Option E), false) ↔ o = GetOutcome.recvClosed) ∧
    ∀ p, (pollRun sources os).2.toPair = some p →
      p ≠ ((none : Option E), false) := by
  refine ⟨?_, ?_, ?_, ?_⟩
  · cases o with
    | ctxDone => exact Or.inl rfl
    | recvEvent e => exact Or.inr (Or.inl ⟨e, rfl⟩)
    | recvClosed => exact Or.inr (Or.inr rfl)
  · cases o <;> simp [clientGet]
  · cases o <;> simp [clientGet]
  · intro p hp
    induction os generalizing sources with
    | nil => exact absurd hp (by simp [pollRun, PollResult.toPair])
    | cons o2 rest ih =>
      cases o2 with
      | cancel =>
        simp only [pollRun, PollResult.toPair] at hp
        cases hp
        simp
      | closedRecv chn => exact ih (delSource sources chn) hp
      | event chn e =>
        simp only [pollRun, PollResult.toPair] at hp
        cases hp
        simp

/-- Witness for C9: the three Get outcomes and the Poll behaviour at a
concrete closed-channel receive and a concrete one-source poller run. -/
theorem get_three_outcomes_poll_two_witness :
    (clientGet (GetOutcome.recvClosed (E := Nat)) = ((none : Option Nat), true) ∨
      (∃ e, clientGet (GetOutcome.recvClosed (E := Nat)) = (some e, false)) ∨
      clientGet (GetOutcome.recvClosed (E := Nat)) = ((none : Option Nat), false)) ∧
    (clientGet (GetOutcome.recvClosed (E := Nat)) = ((none : Option Nat), true) ↔
      (GetOutcome.recvClosed : GetOutcome Nat) = GetOutcome.ctxDone) ∧
    (clientGet (GetOutcome.recvClosed (E := Nat)) = ((none : Option Nat), false) ↔
      (GetOutcome.recvClosed : GetOutcome Nat) = GetOutcome.recvClosed) ∧
    ∀ p, (pollRun (C := Nat) [1] [SelectOutcome.cancel]).2.toPair = some p →
      p ≠ ((none : Option Nat), false) :=
  get_three_outcomes_poll_two GetOutcome.recvClosed [1] [SelectOutcome.cancel]

/-! ## Theorems: closers registry -/

/-- Helper: when the iteration order is a permutation of a duplicate-free
start registry and every invoked `Close` removes its own member, the
cascade invokes `Close` exactly on the members in iteration order and
empties the registry. -/
theorem closersClose_run {M : Type} [DecidableEq M] (order : List M) :
    ∀ set : List M, order.Perm set → set.Nodup →
      (closersClose order set).2 = order ∧ (closersClose order set).1 = [] := by
  induction order with
  | nil =>
    intro set hp _
    have hs : set = [] := hp.symm.eq_nil
    subst hs
    exact ⟨rfl, rfl⟩
  | cons m rest ih =>
    intro set hp hn
    have hm : m ∈ set := hp.subset (List.mem_cons_self m rest)
    have h1 : set.Perm (m :: set.erase m) := List.perm_cons_erase hm
    have h2 : rest.Perm (set.erase m) := (hp.trans h1).cons_inv
    have h3 : (set.erase m).Nodup := hn.erase m
    obtain ⟨ha, hb⟩ := ih (set.erase m) h2 h3
    constructor
    · show (if m ∈ set then
          ((closersClose rest (set.erase m)).1,
            m :: (closersClose rest (set.erase m)).2)
        else closersClose rest set).2 = m :: rest
      rw [if_pos hm]
      simp [ha]
    · show (if m ∈ set then
          ((closersClose rest (set.erase m)).1,
            m :: (closersClose rest (set.erase m)).2)
        else closersClose rest set).1 = []
      rw [if_pos hm]
      exact hb

/-- Claim C7: with children whose `Close` removes them from the registry
as a side effect (as `RecordBrowser.Close` does through `delCloser`), the
registry cascade `closers.close` invokes `Close` on every member present
at the start exactly once — none skipped, none invoked twice — and leaves
the registry empty, for every order in which the map range can produce
the members. -/
theorem closers_close_each_once {M : Type} [DecidableEq M]
    (order set : List M) (hperm : order.Perm set) (hnd : set.Nodup) :
    (closersClose order set).2 = order ∧ (closersClose order set).1 = [] ∧
    ∀ m ∈ set, ((closersClose order set).2).count m = 1 := by
  obtain ⟨ha, hb⟩ := closersClose_run order set hperm hnd
  refine ⟨ha, hb, fun m hm => ?_⟩
  rw [ha]
  have hordnd : order.Nodup := (hperm.nodup_iff).mpr hnd
  have hmem : m ∈ order := hperm.mem_iff.mpr hm
  exact Nat.le_antisymm (List.nodup_iff_count_le_one.mp hordnd m)
    (List.count_pos_iff.mpr hmem)

/-- Witness for C7: children {1, 2, 3} iterated in the order 2, 3, 1 each
have Close invoked exactly once and the registry ends empty. -/
theorem closers_close_each_once_witness :
    (closersClose [2, 3, 1] ([1, 2, 3] : List Nat)).2 = [2, 3, 1] ∧
    (closersClose [2, 3, 1] ([1, 2, 3] : List Nat)).1 = [] ∧
    ∀ m ∈ ([1, 2, 3] : List Nat),
      ((closersClose [2, 3, 1] ([1, 2, 3] : List Nat)).2).count m = 1 :=
  closers_close_each_once [2, 3, 1] [1, 2, 3] (by decide) (by decide)

/-! ## Theorems: client state callback -/

/-- Claim C8 counterexample: on the concrete early Failure callback
(client handle still nil, the foreign source's error code at that moment
being `-2` = ErrBadState) the single pushed event carries the generic
`ErrFailure`, not the error code obtained from the foreign source at the
moment of the transition — so the Err field is not always the fresh
foreign error code on Failure. -/
theorem client_callback_err_fallback_cex :
    (clientCallback
        { closed := false, queue := EventQueue.initq, children := [],
          avahiClient := none, threadedPoll := some 0, pollStopped := false,
          handleDeleted := false }
        AvahiClientState.failure (-2)).queue.pushed
      = [{ State := ClientStateFailure, Err := ErrFailure }] ∧
    ErrFailure ≠ (-2 : ErrCode) :=
  ⟨by decide, by decide⟩

/-- Claim C8 (amended): every state-change callback invocation pushes
exactly one ClientEvent carrying the new state onto the client's event
queue; when the new state is Failure its Err field is the error code read
from the foreign source at the moment of the transition provided the
client handle is already initialized, and falls back to the generic
`ErrFailure` when the very first callback arrives before initialization
(`avahiClient` still nil); Err is the zero code for every non-Failure
state; and the Closed state value is never pushed by the callback — it
arises only from `Client.Close`. -/
theorem client_callback_one_event (clnt : ClientModel) (s : AvahiClientState)
    (errnoNow : ErrCode) :
    (clientCallback clnt s errnoNow).queue.pushed
      = clnt.queue.pushed ++ [clientCallbackEvent clnt s errnoNow] ∧
    (clientCallbackEvent clnt s errnoNow).State = s.toClientState ∧
    (clientCallbackEvent clnt s errnoNow).State ≠ ClientStateClosed ∧
    (s.toClientState = ClientStateFailure → clnt.avahiClient.isSome = true →
      (clientCallbackEvent clnt s errnoNow).Err = errnoNow) ∧
    (s.toClientState = ClientStateFailure → clnt.avahiClient = none →
      (clientCallbackEvent clnt s errnoNow).Err = ErrFailure) ∧
    (s.toClientState ≠ ClientStateFailure →
      (clientCallbackEvent clnt s errnoNow).Err = NoError) := by
  refine ⟨rfl, rfl, ?_, ?_, ?_, ?_⟩
  · cases s <;>
      simp [AvahiClientState.toClientState, clientCallbackEvent,
        ClientStateClosed, ClientStateRegistering, ClientStateRunning,
        ClientStateCollision, ClientStateFailure, ClientStateConnecting]
  · intro h1 h2
    simp [clientCallbackEvent, h1, h2]
  · intro h1 h2
    simp [clientCallbackEvent, h1, h2]
  · intro h1
    simp [clientCallbackEvent, h1]

/-- Witness for C8: a Running-state callback on a concrete client pushes
an event whose state is not the Closed state. -/
theorem client_callback_one_event_witness :
    (clientCallbackEvent
        { closed := false, queue := EventQueue.initq, children := [],
          avahiClient := some 1, threadedPoll := some 0, pollStopped := false,
          handleDeleted := false }
        AvahiClientState.sRunning 0).State ≠ ClientStateClosed :=
  (client_callback_one_event _ AvahiClientState.sRunning 0).2.2.1

/-- Claim C10: when the very first callback reports Failure before
`NewClient` has initialized the underlying handle (`avahiClient` still
nil), the callback never consults the foreign error source (its result
does not depend on it, so the nil handle is not dereferenced); the pushed
event's Err falls back to `ErrFailure`, which is non-zero; and provided
the foreign source reports a non-zero code whenever the handle is
available, every Failure event pushed carries a non-zero error code. -/
theorem client_callback_nil_handle_safe (errnoNow errnoOther : ErrCode)
    (hfresh : errnoNow ≠ NoError) :
    (∀ clnt : ClientModel, clnt.avahiClient = none →
      clientCallback clnt AvahiClientState.failure errnoNow
        = clientCallback clnt AvahiClientState.failure errnoOther) ∧
    (∀ clnt : ClientModel, clnt.avahiClient = none →
      (clientCallbackEvent clnt AvahiClientState.failure errnoNow).Err
        = ErrFailure) ∧
    ErrFailure ≠ NoError ∧
    (∀ clnt : ClientModel,
      (clientCallbackEvent clnt AvahiClientState.failure errnoNow).Err
        ≠ NoError) := by
  refine ⟨?_, ?_, by decide, ?_⟩
  · intro clnt h
    simp [clientCallback, clientCallbackEvent, h]
  · intro clnt h
    simp [clientCallbackEvent, h, AvahiClientState.toClientState]
  · intro clnt
    by_cases h : clnt.avahiClient.isSome
    · simpa [clientCallbackEvent, h, AvahiClientState.toClientState] using hfresh
    · simp only [Bool.not_eq_true, Option.not_isSome_iff_eq_none] at h
      simp [clientCallbackEvent, h]
      decide

/-- Witness for C10: the fallback at the concrete foreign error code
`-2`, compared against a different later code `5`. -/
theorem client_callback_nil_handle_safe_witness :
    (-2 : ErrCode) ≠ NoError ∧
    (∀ clnt : ClientModel, clnt.avahiClient = none →
      clientCallback clnt AvahiClientState.failure (-2)
        = clientCallback clnt AvahiClientState.failure 5) ∧
    (∀ clnt : ClientModel, clnt.avahiClient = none →
      (clientCallbackEvent clnt AvahiClientState.failure (-2)).Err
        = ErrFailure) ∧
    ErrFailure ≠ NoError ∧
    (∀ clnt : ClientModel,
      (clientCallbackEvent clnt AvahiClientState.failure (-2)).Err
        ≠ NoError) :=
  ⟨by decide, client_callback_nil_handle_safe (-2) 5 (by decide)⟩

end GoAvahi
